import Mathlib

set_option linter.unusedVariables false

/-!
Verification of the encheres-immo scraping pipeline: a shallow embedding of
the alert engine (src/analysis/alerts.py), the store upsert and selector
queries (src/db/database.py), the progress reporter (src/scraper/progress.py)
and the history scraper (src/scraper/history_scraper.py), together with
theorems settling the specification claims about them.

Conventions of the embedding:
* Python `Optional[T]` values become `Option T`; SQL `NULL` becomes `none`.
* Integer euro amounts are `Int`; real-valued quantities (surfaces,
  timestamps) are `ℚ`, which models the arithmetic actually performed
  (comparison, subtraction, division) exactly.
* Python string truthiness (`if s:`) is `s` being non-`none` and non-empty.
* Each definition is named after, and translated directly from, the source
  function it embeds; comments cite the source location.
-/

namespace Encheres

/-! ### Small Python-modelling helpers

String operations are implemented by structural recursion over the
character list so that every definition evaluates by kernel reduction. -/

/-- Whether the first list is a prefix of the second. -/
def charsIsPre : List Char → List Char → Bool
  | [], _ => true
  | _ :: _, [] => false
  | a :: as, b :: bs => a = b && charsIsPre as bs

/-- Whether `needle` occurs contiguously inside `hay` (Python substring `in`). -/
def charsContains (needle : List Char) : List Char → Bool
  | [] => needle.isEmpty
  | c :: rest => charsIsPre needle (c :: rest) || charsContains needle rest

/-- Python substring test `needle in hay` on strings. -/
def strContainsSub (hay needle : String) : Bool :=
  charsContains needle.data hay.data

/-- Python truthiness of an optional string: `None` and `""` are falsy. -/
def optStrTruthy : Option String → Bool
  | some s => s ≠ ""
  | none => false

/-- Split a character list at commas (Python `s.split(",")`). -/
def splitCommaChars : List Char → List Char → List (List Char)
  | [], acc => [acc.reverse]
  | c :: cs, acc =>
    if c = ',' then acc.reverse :: splitCommaChars cs []
    else splitCommaChars cs (c :: acc)

/-- Python `str.strip`: drop whitespace from both ends. -/
def pyStrip (s : String) : String :=
  String.mk (((s.data.dropWhile Char.isWhitespace).reverse.dropWhile
      Char.isWhitespace).reverse)

/-- Python `[x.strip() for x in s.split(",")]`. -/
def splitStrip (s : String) : List String :=
  (splitCommaChars s.data []).map (fun cs => pyStrip (String.mk cs))

/-- Python `str.lower` (agrees with `Char.toLower` on ASCII). -/
def pyLower (s : String) : String := String.mk (s.data.map Char.toLower)

/-! ### Alert engine (src/analysis/alerts.py)

`AlertEngine.match_listing(listing, alert)` receives the row of the SQL join
`SELECT l.*, t.region FROM listings l LEFT JOIN tribunals t ...` as a dict,
and the alert row as a dict.  The fields read by `match_listing` are embedded
below; `tribunal_slug` is carried alongside (a dict may hold keys the
function never reads) so that the specification-side predicate about the
alert field `tribunal_slugs` can be stated. -/

/-- The listing dict passed to `AlertEngine.match_listing`. -/
structure ListingJoin where
  mise_a_prix : Option Int
  department_code : Option String
  property_type : Option String
  surface_m2 : Option ℚ
  region : Option String
  tribunal_slug : Option String
  deriving DecidableEq, Repr

/-- The alert row (columns of the `alerts` table read by the engine, plus
`tribunal_slugs` and `is_active` which are stored but never read by
`match_listing`). -/
structure AlertRow where
  min_price : Option Int
  max_price : Option Int
  department_codes : Option String
  regions : Option String
  property_types : Option String
  min_surface : Option ℚ
  max_surface : Option ℚ
  tribunal_slugs : Option String
  is_active : Bool
  deriving DecidableEq, Repr

/-- `alert["min_price"] is not None and v < alert["min_price"]`. -/
def belowMin (v : Int) : Option Int → Bool
  | some m => v < m
  | none => false

/-- `alert["max_price"] is not None and v > alert["max_price"]`. -/
def aboveMax (v : Int) : Option Int → Bool
  | some m => v > m
  | none => false

/-- Rational variant of `belowMin` (surface bounds). -/
def belowMinQ (v : ℚ) : Option ℚ → Bool
  | some m => v < m
  | none => false

/-- Rational variant of `aboveMax` (surface bounds). -/
def aboveMaxQ (v : ℚ) : Option ℚ → Bool
  | some m => v > m
  | none => false

/-- The `department_codes` guard of `match_listing`:
`if alert["department_codes"]:` then fail when
`listing.get("department_code") not in [d.strip() for d in split(",")]`
(a `None` department is not a member of any list of strings). -/
def deptFails (l : ListingJoin) (a : AlertRow) : Bool :=
  optStrTruthy a.department_codes &&
    !(match l.department_code with
      | some d => decide (d ∈ splitStrip (a.department_codes.getD ""))
      | none => false)

/-- The `property_types` guard: fail when no lowercased comma term is a
substring of the lowercased listing type (`None` coalesced to `""`). -/
def typeFails (l : ListingJoin) (a : AlertRow) : Bool :=
  optStrTruthy a.property_types &&
    !((splitStrip (a.property_types.getD "")).any fun t =>
        strContainsSub (pyLower (l.property_type.getD "")) (pyLower t))

/-- The `regions` guard: fail when the listing region (`None` coalesced to
`""` by `listing.get("region") or ""`) is not among the comma terms. -/
def regionFails (l : ListingJoin) (a : AlertRow) : Bool :=
  optStrTruthy a.regions &&
    !(decide ((l.region.getD "") ∈ splitStrip (a.regions.getD "")))

/-- `AlertEngine.match_listing` (src/analysis/alerts.py:19-51), translated
guard by guard; `listing.get(k) or 0` is `Option.getD 0` (both map `None`
and `0` to `0`). -/
def match_listing (l : ListingJoin) (a : AlertRow) : Bool :=
  let mise_a_prix : Int := l.mise_a_prix.getD 0
  if belowMin mise_a_prix a.min_price then false else
  if aboveMax mise_a_prix a.max_price then false else
  if deptFails l a then false else
  if typeFails l a then false else
  let surface : ℚ := l.surface_m2.getD 0
  if belowMinQ surface a.min_surface then false else
  if aboveMaxQ surface a.max_surface then false else
  if regionFails l a then false else
  true

/-! Specification-side predicates for claim C1, written from the claim text:
the conjunction of all the alert criteria, including exact membership of the
listing tribunal slug in the comma-joined `tribunal_slugs` set. -/

/-- Spec-side `tribunal_slugs` criterion from the claim: when specified,
the listing tribunal slug must be an exact member of the comma-split set. -/
def specTribunalOk (l : ListingJoin) (a : AlertRow) : Bool :=
  !(optStrTruthy a.tribunal_slugs) ||
    (match l.tribunal_slug with
     | some t => decide (t ∈ splitStrip (a.tribunal_slugs.getD ""))
     | none => false)

/-- Spec-side conjunction of all criteria except `tribunal_slugs`
(numeric bounds with null-as-0, exact department / region membership,
lowercase substring containment for property types; unspecified criteria
match everything). -/
def specMatchCore (l : ListingJoin) (a : AlertRow) : Bool :=
  !(belowMin (l.mise_a_prix.getD 0) a.min_price) &&
  !(aboveMax (l.mise_a_prix.getD 0) a.max_price) &&
  !(deptFails l a) &&
  !(typeFails l a) &&
  !(belowMinQ (l.surface_m2.getD 0) a.min_surface) &&
  !(aboveMaxQ (l.surface_m2.getD 0) a.max_surface) &&
  !(regionFails l a)

/-- The claim-C1 matching predicate as written: all criteria conjoined,
`tribunal_slugs` included. -/
def specMatchFull (l : ListingJoin) (a : AlertRow) : Bool :=
  specMatchCore l a && specTribunalOk l a

/-- An all-unspecified listing except for its tribunal slug. -/
def cexListingC1 : ListingJoin :=
  { mise_a_prix := none, department_code := none, property_type := none
    surface_m2 := none, region := none, tribunal_slug := some "tj-lyon" }

/-- An active alert whose only criterion is `tribunal_slugs`. -/
def cexAlertC1 : AlertRow :=
  { min_price := none, max_price := none, department_codes := none
    regions := none, property_types := none, min_surface := none
    max_surface := none, tribunal_slugs := some "tj-paris", is_active := true }

/-! ### Store (src/db/database.py)

The `listings` table row.  The embedding carries every column touched by
`upsert_listing_summary`, `update_listing_detail` and the selector queries,
so that frame properties (which columns an update leaves untouched) are
expressible. -/

structure ListingRow where
  licitor_id : Int
  url_path : String
  property_type : Option String
  department_code : Option String
  city : Option String
  mise_a_prix : Option Int
  description : Option String
  tribunal_id : Option Int
  is_historical : Bool
  status : String
  auction_date : Option String
  auction_time : Option String
  surface_m2 : Option ℚ
  energy_rating : Option String
  occupancy_status : Option String
  full_address : Option String
  latitude : Option ℚ
  longitude : Option ℚ
  cadastral_ref : Option String
  case_reference : Option String
  lawyer_name : Option String
  lawyer_phone : Option String
  view_count : Option Int
  favorites_count : Option Int
  publication_date : Option String
  detail_scraped : Bool
  final_price : Option Int
  result_status : Option String
  result_date : Option String
  last_scraped_at : Option String
  deriving DecidableEq, Repr

/-- A row of the `tribunals` table (columns used by the upsert path). -/
structure TribunalRow where
  id : Int
  name : String
  slug : String
  region : String
  deriving DecidableEq, Repr

/-- `db/models.py ListingSummary` (pydantic model produced by the scrapers). -/
structure ListingSummary where
  licitor_id : Int
  url_path : String
  property_type : Option String := none
  department_code : Option String := none
  city : Option String := none
  mise_a_prix : Option Int := none
  description_short : Option String := none
  publication_date : Option String := none
  final_price : Option Int := none
  result_status : Option String := none
  result_date : Option String := none
  deriving DecidableEq, Repr

/-- The persistent store: the two tables the upsert path reads or writes. -/
structure DBState where
  tribunals : List TribunalRow
  listings : List ListingRow
  deriving DecidableEq, Repr

/-- `Database.get_tribunal_id`: `SELECT id FROM tribunals WHERE slug = ?`. -/
def get_tribunal_id (db : DBState) (slug : String) : Option Int :=
  (db.tribunals.find? (fun t => t.slug == slug)).map (fun t => t.id)

/-- The conditional `UPDATE listings SET ...` of `upsert_listing_summary`
(src/db/database.py:129-149) applied to one row: `last_scraped_at` is always
stamped; `final_price` only when the incoming value is not `None`;
`result_status` (together with `status := 'past'`) and `result_date` only
when truthy; `is_historical` only when the flag is passed.  Every other
column is absent from the SET list. -/
def applySummaryUpdate (s : ListingSummary) (is_historical : Bool)
    (now : String) (r : ListingRow) : ListingRow :=
  { r with
    last_scraped_at := some now
    final_price := match s.final_price with
      | some fp => some fp
      | none => r.final_price
    result_status := if optStrTruthy s.result_status then s.result_status
      else r.result_status
    status := if optStrTruthy s.result_status then "past" else r.status
    result_date := if optStrTruthy s.result_date then s.result_date
      else r.result_date
    is_historical := if is_historical then true else r.is_historical }

/-- The `INSERT INTO listings (...)` row of `upsert_listing_summary`
(src/db/database.py:154-177).  Columns not named by the INSERT keep their
schema defaults (`NULL` / 0). -/
def insertSummaryRow (s : ListingSummary) (tribunal_id : Option Int)
    (is_historical : Bool) (auction_date : Option String) : ListingRow :=
  { licitor_id := s.licitor_id
    url_path := s.url_path
    property_type := s.property_type
    department_code := s.department_code
    city := s.city
    mise_a_prix := s.mise_a_prix
    description := s.description_short
    tribunal_id := tribunal_id
    is_historical := is_historical
    status := if is_historical then "past" else "upcoming"
    auction_date := auction_date
    final_price := s.final_price
    result_status := s.result_status
    result_date := s.result_date
    auction_time := none, surface_m2 := none, energy_rating := none
    occupancy_status := none, full_address := none, latitude := none
    longitude := none, cadastral_ref := none, case_reference := none
    lawyer_name := none, lawyer_phone := none, view_count := none
    favorites_count := none, publication_date := none
    detail_scraped := false, last_scraped_at := none }

/-- `Database.upsert_listing_summary` (src/db/database.py:115-178).
Returns `true` iff newly inserted.  `now` stands for `datetime('now')`.
The guarded UPDATE hits every row matching the `WHERE licitor_id = ?`
clause; the INSERT appends a fresh row. -/
def upsert_listing_summary (db : DBState) (s : ListingSummary)
    (tribunal_slug : Option String) (is_historical : Bool)
    (auction_date : Option String) (now : String) : Bool × DBState :=
  match db.listings.find? (fun r => r.licitor_id == s.licitor_id) with
  | some _ =>
    (false,
      { db with listings := db.listings.map fun r =>
          if r.licitor_id == s.licitor_id then
            applySummaryUpdate s is_historical now r
          else r })
  | none =>
    let tribunal_id := match tribunal_slug with
      | some sl => get_tribunal_id db sl
      | none => none
    (true,
      { db with listings :=
          db.listings ++ [insertSummaryRow s tribunal_id is_historical auction_date] })

/-! Selector queries for the backfill phases.  `ORDER BY licitor_id DESC`
is rendered by `List.insertionSort` with the relation below (`licitor_id`
is unique, so any stable/unstable sort yields the same list); the `SELECT`
column projection is omitted so the theorems can speak about whole rows. -/

/-- The `ORDER BY licitor_id DESC` relation. -/
def licitorDesc (a b : ListingRow) : Prop := b.licitor_id ≤ a.licitor_id

instance : DecidableRel licitorDesc :=
  fun a b => inferInstanceAs (Decidable (b.licitor_id ≤ a.licitor_id))

instance : IsTotal ListingRow licitorDesc :=
  ⟨fun a b => le_total b.licitor_id a.licitor_id⟩

instance : IsTrans ListingRow licitorDesc :=
  ⟨fun _ _ _ h1 h2 => le_trans h2 h1⟩

/-- WHERE clause of `get_listings_without_mise_a_prix`:
`result_status IS NOT NULL AND (mise_a_prix IS NULL OR mise_a_prix = 0)`. -/
def lacksMiseAPrix (r : ListingRow) : Bool :=
  r.result_status.isSome && (r.mise_a_prix.isNone || r.mise_a_prix == some 0)

/-- `Database.get_listings_without_mise_a_prix` (src/db/database.py:250-261). -/
def get_listings_without_mise_a_prix (listings : List ListingRow)
    (limit : Nat) : List ListingRow :=
  (List.insertionSort licitorDesc (listings.filter lacksMiseAPrix)).take limit

/-- WHERE clause of `get_listings_without_surface`:
`result_status IS NOT NULL AND (surface_m2 IS NULL OR surface_m2 = 0)`. -/
def lacksSurface (r : ListingRow) : Bool :=
  r.result_status.isSome && (r.surface_m2.isNone || r.surface_m2 == some 0)

/-- `Database.get_listings_without_surface` (src/db/database.py:271-282). -/
def get_listings_without_surface (listings : List ListingRow)
    (limit : Nat) : List ListingRow :=
  (List.insertionSort licitorDesc (listings.filter lacksSurface)).take limit

/-! ### Progress reporter (src/scraper/progress.py)

Timestamps (`time.time()` values) are rationals.  The JSON payload written
by `_flush` is embedded field for field, except the two formatted duplicate
strings (`elapsed_fmt`, `eta_fmt`), which are pure presentations of
`elapsed_seconds` / `eta_seconds`. -/

/-- `_STALE_TIMEOUT = 120`. -/
def STALE_TIMEOUT : ℚ := 120

/-- The record stored in `scrape_progress.json`. -/
structure ProgressRecord where
  job_type : String
  status : String
  pid : Nat
  started_at : ℚ
  last_flush_ts : ℚ
  elapsed_seconds : ℚ
  total : Int
  processed : Int
  updated : Int
  errors : Int
  not_found : Int
  remaining : Int
  progress_pct : ℚ
  speed_per_min : ℚ
  eta_seconds : ℚ
  current_item : String
  phase : String
  phase_number : Int
  phase_total : Int
  error_message : String
  deriving DecidableEq, Repr

/-- The files owned by the progress module: `scrape_progress.json`
(`none` when absent or unreadable) and the presence of
`scrape_cancel.flag`. -/
structure ProgressFs where
  progress : Option ProgressRecord
  cancelFlag : Bool
  deriving DecidableEq, Repr

/-- The in-memory attributes of a `ProgressWriter` instance. -/
structure WriterState where
  job_type : String
  total : Int
  processed : Int
  updated : Int
  errors : Int
  not_found : Int
  started_at : ℚ
  current_item : String
  phase : String
  phase_number : Int
  phase_total : Int
  deriving DecidableEq, Repr

/-- The JSON payload built by `ProgressWriter._flush`
(src/scraper/progress.py:101-135). -/
def flushRecord (w : WriterState) (status error_message : String)
    (now : ℚ) (pid : Nat) : ProgressRecord :=
  let elapsed : ℚ := now - w.started_at
  let remaining : Int := w.total - w.processed
  let speed : ℚ := if elapsed > 0 then (w.processed : ℚ) / elapsed else 0
  let eta : ℚ := if speed > 0 then (remaining : ℚ) / speed else 0
  { job_type := w.job_type
    status := status
    pid := pid
    started_at := w.started_at
    last_flush_ts := now
    elapsed_seconds := elapsed
    total := w.total
    processed := w.processed
    updated := w.updated
    errors := w.errors
    not_found := w.not_found
    remaining := remaining
    progress_pct := if w.total ≠ 0 then (w.processed : ℚ) / (w.total : ℚ) * 100 else 0
    speed_per_min := speed * 60
    eta_seconds := eta
    current_item := w.current_item
    phase := w.phase
    phase_number := w.phase_number
    phase_total := w.phase_total
    error_message := error_message }

/-- `ProgressWriter._flush`: atomically replace the progress file. -/
def writerFlush (w : WriterState) (status error_message : String)
    (now : ℚ) (pid : Nat) (fs : ProgressFs) : ProgressFs :=
  { fs with progress := some (flushRecord w status error_message now pid) }

/-- `_clear_cancel_flag` (src/scraper/progress.py:254-257). -/
def clearCancelFlag (fs : ProgressFs) : ProgressFs :=
  { fs with cancelFlag := false }

/-- `request_cancel` (src/scraper/progress.py:248-251). -/
def request_cancel (fs : ProgressFs) : ProgressFs :=
  { fs with cancelFlag := true }

/-- `ProgressWriter.is_cancel_requested`: the flag file exists. -/
def is_cancel_requested (fs : ProgressFs) : Bool := fs.cancelFlag

/-- `ProgressWriter.__init__` (src/scraper/progress.py:43-57): zero the
counters, clear any leftover cancel flag, then flush an initial
`running` record. -/
def progressWriterNew (job_type : String) (total : Int) (now : ℚ)
    (pid : Nat) (fs : ProgressFs) : WriterState × ProgressFs :=
  let w : WriterState :=
    { job_type := job_type, total := total, processed := 0, updated := 0
      errors := 0, not_found := 0, started_at := now, current_item := ""
      phase := "", phase_number := 0, phase_total := 0 }
  let fs := clearCancelFlag fs
  (w, writerFlush w "running" "" now pid fs)

/-- `ProgressWriter.set_phase` (src/scraper/progress.py:59-64): update the
phase triple and flush (with the default `status="running"`). -/
def set_phase (w : WriterState) (phase : String) (phase_number phase_total : Int)
    (now : ℚ) (pid : Nat) (fs : ProgressFs) : WriterState × ProgressFs :=
  let w := { w with phase := phase, phase_number := phase_number
                    phase_total := phase_total }
  (w, writerFlush w "running" "" now pid fs)

/-- `ProgressWriter.tick` (src/scraper/progress.py:66-84): bump `processed`
and the selected counter, then flush (with the default `status="running"`). -/
def tick (w : WriterState) (updated error not_found : Bool)
    (current_item : String) (now : ℚ) (pid : Nat) (fs : ProgressFs) :
    WriterState × ProgressFs :=
  let w := { w with processed := w.processed + 1 }
  let w := if updated then { w with updated := w.updated + 1 } else w
  let w := if error then { w with errors := w.errors + 1 } else w
  let w := if not_found then { w with not_found := w.not_found + 1 } else w
  let w := if current_item ≠ "" then { w with current_item := current_item } else w
  (w, writerFlush w "running" "" now pid fs)

/-- `ProgressWriter.finish` (src/scraper/progress.py:86-87); the Python
default argument is `status="finished"`. -/
def finish (w : WriterState) (status : String) (now : ℚ) (pid : Nat)
    (fs : ProgressFs) : ProgressFs :=
  writerFlush w status "" now pid fs

/-- `ProgressWriter.cancel` (src/scraper/progress.py:89-91). -/
def cancel (w : WriterState) (now : ℚ) (pid : Nat) (fs : ProgressFs) :
    ProgressFs :=
  writerFlush w "cancelled" "" now pid fs

/-- `ProgressWriter.abort` (src/scraper/progress.py:93-94). -/
def abort (w : WriterState) (reason : String) (now : ℚ) (pid : Nat)
    (fs : ProgressFs) : ProgressFs :=
  writerFlush w "error" reason now pid fs

/-- `init_progress` (src/scraper/progress.py:140-175): clear the cancel
flag, then write the fixed initial `running` record. -/
def init_progress (job_type : String) (now : ℚ) (pid : Nat)
    (fs : ProgressFs) : ProgressFs :=
  let fs := clearCancelFlag fs
  let rec0 : ProgressRecord :=
    { job_type := job_type, status := "running", pid := pid
      started_at := now, last_flush_ts := now, elapsed_seconds := 0
      total := 0, processed := 0, updated := 0, errors := 0, not_found := 0
      remaining := 0, progress_pct := 0, speed_per_min := 0, eta_seconds := 0
      current_item := "Demarrage...", phase := "Initialisation"
      phase_number := 0, phase_total := 0, error_message := "" }
  { fs with progress := some rec0 }

/-- `is_job_running` (src/scraper/progress.py:201-216): `read_progress()`
yields `none` when the file is absent or unreadable; `data.get("status")`
must be `"running"`; the staleness check is guarded by the truthiness of
`last_flush = data.get("last_flush_ts", 0)`, so a zero timestamp skips it. -/
def is_job_running (data : Option ProgressRecord) (now : ℚ) : Bool :=
  match data with
  | none => false
  | some d =>
    if d.status ≠ "running" then false
    else if d.last_flush_ts ≠ 0 && (now - d.last_flush_ts > STALE_TIMEOUT) then
      false
    else true

/-! ### History scraper (src/scraper/history_scraper.py)

The HTML page fetched at a URL is abstracted as a `HistoryPage` holding the
outputs of the four pure extraction helpers applied to its soup; a `Site`
maps URLs to pages, `none` modelling a fetch that raises after exhausting
retries.  `Option` threads exception propagation: `none` results of the
walk correspond to an exception escaping `scrape_tribunal_history`. -/

/-- `parse_price` (src/scraper/parsers.py:40-49): empty text is `None`;
otherwise keep only digits and read them as an integer, `None` if no digit
survives. -/
def parse_price (text : String) : Option Int :=
  if text = "" then none
  else
    let cleaned := text.data.filter Char.isDigit
    if cleaned.isEmpty then none
    else some (Int.ofNat
      (cleaned.foldl (fun acc c => acc * 10 + (c.toNat - Char.toNat '0')) 0))

/-- A `<p class="Result">` element: its stripped text and the stripped text
of its `span.PriceNumber` child when present. -/
structure ResultElem where
  text : String
  priceNumberSpan : Option String
  deriving DecidableEq, Repr

/-- `re.match(r"(\d{2})-(\d{2})-(\d{4})", text)` with the groups reassembled
to `YYYY-MM-DD` as in `_parse_result_status`. -/
def matchLeadingDate (text : String) : Option String :=
  match text.data with
  | d1 :: d2 :: s1 :: m1 :: m2 :: s2 :: y1 :: y2 :: y3 :: y4 :: _ =>
    if d1.isDigit && d2.isDigit && s1 = '-' && m1.isDigit && m2.isDigit &&
        s2 = '-' && y1.isDigit && y2.isDigit && y3.isDigit && y4.isDigit then
      some (String.mk [y1, y2, y3, y4, '-', m1, m2, '-', d1, d2])
    else none
  | _ => none

/-- `HistoryScraper._parse_result_status` (src/scraper/history_scraper.py:91-128):
decode a result element to `(status, final_price, result_date)`. -/
def parse_result_status (elem : Option ResultElem) :
    Option String × Option Int × Option String :=
  match elem with
  | none => (none, none, none)
  | some p =>
    let text := p.text
    let text_lower := pyLower text
    if strContainsSub text_lower "carence" then (some "carence", none, none)
    else if strContainsSub text_lower "non requise" then
      (some "non_requise", none, none)
    else
      let final_price := match p.priceNumberSpan with
        | some sp => parse_price sp
        | none => none
      let result_date := matchLeadingDate text
      match final_price with
      | some fp => (some "sold", some fp, result_date)
      | none => (none, none, none)

/-- One `<li>` of the `#traversing-hearings` list
(`_get_hearing_dates_from_page` output; `href` already `#`-stripped). -/
structure HearingLink where
  url_path : String
  label : String
  count : Nat
  deriving DecidableEq, Repr

/-- The outputs of the pure extraction helpers on one fetched page:
`_parse_results_from_soup`, `_get_hearing_dates_from_page`,
`_get_previous_hearings_url` and `_get_total_pages`. -/
structure HistoryPage where
  summaries : List ListingSummary
  hearingDates : List HearingLink
  previousUrl : Option String
  totalPages : Nat

/-- The site being crawled; `none` models `fetch` raising. -/
def Site : Type := String → Option HistoryPage

/-- Python `url.split("?")[0]`. -/
def stripQuery (s : String) : String :=
  String.mk (s.data.takeWhile (fun c => c ≠ '?'))

/-- The paged URL `f"{base_path}?p={p}"`. -/
def pagedPath (base : String) (p : Nat) : String :=
  base ++ "?p=" ++ toString p

/-- `HistoryScraper.scrape_results_page`: fetch and parse one results page
(`none` when the fetch raises). -/
def scrape_results_page (site : Site) (path : String) :
    Option (List ListingSummary) :=
  (site path).map (fun pg => pg.summaries)

/-- The `for p in range(2, total_pages + 1)` pagination loop shared by
`scrape_hearing_all_pages` and the main walk; an exception from any page
fetch propagates (`none`). -/
def scrapeExtraPages (site : Site) (base : String) :
    List Nat → Option (List ListingSummary)
  | [] => some []
  | p :: ps =>
    match scrape_results_page site (pagedPath base p) with
    | none => none
    | some s => (scrapeExtraPages site base ps).map (fun rest => s ++ rest)

/-- Parse an already-fetched hearing page plus its pages `2..total_pages`
(the common body of both branches of the main loop). -/
def scrapeCurrentHearingPages (site : Site) (url : String)
    (page : HistoryPage) : Option (List ListingSummary) :=
  (scrapeExtraPages site (stripQuery url) (List.range' 2 (page.totalPages - 1))).map
    (fun rest => page.summaries ++ rest)

/-- `HistoryScraper.scrape_hearing_all_pages`
(src/scraper/history_scraper.py:231-252). -/
def scrape_hearing_all_pages (site : Site) (hearing_path : String) :
    Option (List ListingSummary) :=
  match site hearing_path with
  | none => none
  | some pg => scrapeCurrentHearingPages site hearing_path pg

/-- The inner `for hearing in hearing_dates` loop of
`scrape_tribunal_history` (src/scraper/history_scraper.py:470-493), given
the absolute `hearings_scraped` value at entry.  It returns the summaries
it collected, the updated visited set, and the number of hearings it
scraped (the amount Python adds to `hearings_scraped`); failures of
`scrape_hearing_all_pages` are caught and skipped. -/
def innerHearings (site : Site) (maxHearings : Nat) (currentUrl : String) :
    List HearingLink → List String → Nat →
    List ListingSummary × List String × Nat
  | [], visited, _ => ([], visited, 0)
  | h :: rest, visited, scraped =>
    if scraped ≥ maxHearings then ([], visited, 0)
    else if h.url_path ∈ visited then
      innerHearings site maxHearings currentUrl rest visited scraped
    else if stripQuery h.url_path = stripQuery currentUrl then
      innerHearings site maxHearings currentUrl rest visited scraped
    else
      let visited := h.url_path :: visited
      match scrape_hearing_all_pages site h.url_path with
      | none => innerHearings site maxHearings currentUrl rest visited scraped
      | some hs =>
        let r := innerHearings site maxHearings currentUrl rest visited (scraped + 1)
        (hs ++ r.1, r.2.1, r.2.2 + 1)

/-- The loop variables of `scrape_tribunal_history`. -/
structure HistoryWalkState where
  all_summaries : List ListingSummary
  visited_urls : List String
  hearings_scraped : Nat

/-- The `while current_page_url and hearings_scraped < max_hearings` loop of
`HistoryScraper.scrape_tribunal_history` (src/scraper/history_scraper.py:
397-503).  `none` as `current` (or the empty string) is a falsy
`current_page_url`; a failed fetch of the nav page breaks, while a failed
fetch inside the pagination of the current hearing propagates (`none`
result).  Termination: each iteration increments `hearings_scraped` by at
least one and the loop only runs while it is below `maxHearings`. -/
def historyWalk (site : Site) (maxHearings : Nat) (current : Option String)
    (st : HistoryWalkState) : Option HistoryWalkState :=
  match current with
  | none => some st
  | some url =>
    if url = "" then some st
    else if hlt : st.hearings_scraped < maxHearings then
      if url ∈ st.visited_urls then some st
      else
        match site url with
        | none => some { st with visited_urls := url :: st.visited_urls }
        | some page =>
          match scrapeCurrentHearingPages site url page with
          | none => none
          | some summaries =>
            if page.hearingDates.isEmpty then
              historyWalk site maxHearings page.previousUrl
                { all_summaries := st.all_summaries ++ summaries
                  visited_urls := url :: st.visited_urls
                  hearings_scraped := st.hearings_scraped + 1 }
            else
              historyWalk site maxHearings page.previousUrl
                { all_summaries := st.all_summaries ++ summaries ++
                    (innerHearings site maxHearings url page.hearingDates
                      (url :: st.visited_urls) (st.hearings_scraped + 1)).1
                  visited_urls :=
                    (innerHearings site maxHearings url page.hearingDates
                      (url :: st.visited_urls) (st.hearings_scraped + 1)).2.1
                  hearings_scraped := st.hearings_scraped + 1 +
                    (innerHearings site maxHearings url page.hearingDates
                      (url :: st.visited_urls) (st.hearings_scraped + 1)).2.2 }
    else some st
termination_by maxHearings - st.hearings_scraped
decreasing_by
  · omega
  · omega

/-- `HistoryScraper.scrape_tribunal_history`: run the walk from the start
URL with empty visited set and zero counter (`tribunal_slug` is only used
for logging in the source). -/
def scrape_tribunal_history (site : Site) (start_url tribunal_slug : String)
    (max_hearings : Nat) : Option HistoryWalkState :=
  historyWalk site max_hearings (some start_url)
    { all_summaries := [], visited_urls := [], hearings_scraped := 0 }

/-! ### Concrete fixtures used by counterexamples and witnesses -/

/-- A stored progress record whose `last_flush_ts` is the (falsy) value 0
while its status is `running`. -/
def staleRec : ProgressRecord :=
  { job_type := "incremental", status := "running", pid := 1, started_at := 0
    last_flush_ts := 0, elapsed_seconds := 0, total := 0, processed := 0
    updated := 0, errors := 0, not_found := 0, remaining := 0
    progress_pct := 0, speed_per_min := 0, eta_seconds := 0
    current_item := "", phase := "", phase_number := 0, phase_total := 0
    error_message := "" }

/-- A listing row with every optional column empty (fixture base). -/
def blankRow : ListingRow :=
  { licitor_id := 0, url_path := "", property_type := none
    department_code := none, city := none, mise_a_prix := none
    description := none, tribunal_id := none, is_historical := false
    status := "upcoming", auction_date := none, auction_time := none
    surface_m2 := none, energy_rating := none, occupancy_status := none
    full_address := none, latitude := none, longitude := none
    cadastral_ref := none, case_reference := none, lawyer_name := none
    lawyer_phone := none, view_count := none, favorites_count := none
    publication_date := none, detail_scraped := false, final_price := none
    result_status := none, result_date := none, last_scraped_at := none }

/-- A non-historical listing carrying a scraped result but no starting
price and no surface. -/
def nonHistResultRow : ListingRow :=
  { blankRow with
    licitor_id := 7, url_path := "/annonce/7.html", is_historical := false,
    status := "past", result_status := some "sold", final_price := some 58000 }

/-- A historical listing that lacks both backfill targets but carries no
result data. -/
def histNoResultRow : ListingRow :=
  { blankRow with
    licitor_id := 8, url_path := "/annonce/8.html", is_historical := true,
    status := "past", result_status := none }

/-! ## Theorems -/

/-- A chain of early-`false` returns equals the conjunction of the negated
guards (shape of `match_listing`). -/
theorem ifchain7 (b1 b2 b3 b4 b5 b6 b7 : Bool) :
    (if b1 then false else if b2 then false else if b3 then false else
     if b4 then false else if b5 then false else if b6 then false else
     if b7 then false else true)
    = (!b1 && !b2 && !b3 && !b4 && !b5 && !b6 && !b7) := by
  cases b1 <;> cases b2 <;> cases b3 <;> cases b4 <;> cases b5 <;> cases b6 <;>
    cases b7 <;> rfl

/-- Claim C1, counterexample: the claim demands that an alert specifying
`tribunal_slugs` rejects a listing from another tribunal, but
`match_listing` never reads `tribunal_slugs`, so a listing whose tribunal
slug is `tj-lyon` matches an alert restricted to `tj-paris`. -/
theorem match_listing_ignores_tribunal_slugs_cex :
    ¬(match_listing cexListingC1 cexAlertC1 = true
      ↔ specMatchFull cexListingC1 cexAlertC1 = true) := by decide

/-- Claim C1 (amended): for every listing and every active alert,
`match_listing` returns true iff the conjunction of the price and surface
bounds (null listing values comparing as 0), exact `department_codes`
membership, lowercase substring containment for `property_types`, and
exact `regions` membership holds, unspecified criteria matching
everything; the stored `tribunal_slugs` criterion is ignored. -/
theorem match_listing_eq_conjunction (l : ListingJoin) (a : AlertRow)
    (_ha : a.is_active = true) :
    match_listing l a = specMatchCore l a :=
  ifchain7 (belowMin (l.mise_a_prix.getD 0) a.min_price)
    (aboveMax (l.mise_a_prix.getD 0) a.max_price)
    (deptFails l a) (typeFails l a)
    (belowMinQ (l.surface_m2.getD 0) a.min_surface)
    (aboveMaxQ (l.surface_m2.getD 0) a.max_surface)
    (regionFails l a)

/-- Witness for C1 at a concrete listing and active alert. -/
theorem match_listing_eq_conjunction_witness :
    cexAlertC1.is_active = true
    ∧ match_listing cexListingC1 cexAlertC1 = specMatchCore cexListingC1 cexAlertC1 :=
  ⟨by decide, match_listing_eq_conjunction cexListingC1 cexAlertC1 (by decide)⟩

/-- Claim C9: a null starting price (surface) is compared as the value 0
against the alert bounds, and in particular any alert with
`min_price > 0` rejects every listing with a null starting price. -/
theorem null_numeric_fields_compare_as_zero (l : ListingJoin) (a : AlertRow)
    (m : Int) :
    (match_listing { l with mise_a_prix := none } a
      = match_listing { l with mise_a_prix := some 0 } a)
    ∧ (match_listing { l with surface_m2 := none } a
      = match_listing { l with surface_m2 := some 0 } a)
    ∧ (a.min_price = some m → 0 < m →
        match_listing { l with mise_a_prix := none } a = false) := by
  refine ⟨rfl, rfl, fun hm h0 => ?_⟩
  simp [match_listing, belowMin, hm, h0]

/-- Witness for C9: a 50 000 € minimum rejects a price-less listing. -/
theorem null_numeric_fields_compare_as_zero_witness :
    match_listing { cexListingC1 with mise_a_prix := none }
      { cexAlertC1 with min_price := some 50000 } = false :=
  (null_numeric_fields_compare_as_zero cexListingC1
    { cexAlertC1 with min_price := some 50000 } 50000).2.2 rfl (by decide)

/-- Claim C10: constructing a `ProgressWriter` and calling `init_progress`
both delete any pre-existing cancel flag before writing the initial
`running` record, so a cancel requested before job start is discarded. -/
theorem job_init_discards_pending_cancel (job : String) (total : Int)
    (now : ℚ) (pid : Nat) (fs : ProgressFs) :
    is_cancel_requested (progressWriterNew job total now pid fs).2 = false
    ∧ is_cancel_requested (init_progress job now pid fs) = false
    ∧ is_cancel_requested
        (progressWriterNew job total now pid (request_cancel fs)).2 = false
    ∧ is_cancel_requested (init_progress job now pid (request_cancel fs)) = false
    ∧ ((progressWriterNew job total now pid fs).2).progress.map
        ProgressRecord.status = some "running"
    ∧ (init_progress job now pid fs).progress.map
        ProgressRecord.status = some "running" :=
  ⟨rfl, rfl, rfl, rfl, rfl, rfl⟩

/-- Claim C4, counterexample: after `finish()` has stored status
`finished`, a subsequent `tick()` re-flushes the record with status
`running` — the terminal status does not stick. -/
theorem tick_after_finish_reverts_cex :
    (finish (progressWriterNew "history" 5 0 1 ⟨none, false⟩).1 "finished" 1 1
      (progressWriterNew "history" 5 0 1 ⟨none, false⟩).2).progress.map
        ProgressRecord.status = some "finished"
    ∧ ((tick (progressWriterNew "history" 5 0 1 ⟨none, false⟩).1
        true false false "x" 2 1
        (finish (progressWriterNew "history" 5 0 1 ⟨none, false⟩).1 "finished" 1 1
          (progressWriterNew "history" 5 0 1 ⟨none, false⟩).2)).2).progress.map
        ProgressRecord.status = some "running" := by
  constructor <;> rfl

/-- Claim C4 (amended): `finish()`, `cancel()` and `abort()` store the
terminal statuses, but they are not sticky: a subsequent `tick()` or
`set_phase()` from any writer state unconditionally re-flushes the record
with status `running` (the default `_flush` status); stickiness is only a
contract on the callers. -/
theorem terminal_transitions_not_sticky (w : WriterState) (fs : ProgressFs)
    (now now2 : ℚ) (pid pid2 : Nat) (reason ci ph : String)
    (upd err nf : Bool) (pn pt : Int) :
    (finish w "finished" now pid fs).progress.map ProgressRecord.status
      = some "finished"
    ∧ (cancel w now pid fs).progress.map ProgressRecord.status
      = some "cancelled"
    ∧ (abort w reason now pid fs).progress.map ProgressRecord.status
      = some "error"
    ∧ ((tick w upd err nf ci now2 pid2 fs).2).progress.map
        ProgressRecord.status = some "running"
    ∧ ((set_phase w ph pn pt now2 pid2 fs).2).progress.map
        ProgressRecord.status = some "running" :=
  ⟨rfl, rfl, rfl, rfl, rfl⟩

/-- Claim C7, counterexample: a stored record with status `running` and
`last_flush_ts = 0` is arbitrarily stale at time 1000, yet
`is_job_running` reports true, because the staleness check is guarded by
the truthiness of `last_flush`. -/
theorem is_job_running_zero_ts_cex :
    (1000 : ℚ) - staleRec.last_flush_ts > STALE_TIMEOUT
    ∧ staleRec.status = "running"
    ∧ is_job_running (some staleRec) 1000 = true := by
  refine ⟨by norm_num [staleRec, STALE_TIMEOUT], rfl, rfl⟩

/-- Claim C7 (amended): `is_job_running` returns false when no readable
record exists, when the stored status is not `running`, and when the
last-flush timestamp is nonzero and older than the 120 s staleness
threshold; with status `running` it returns true when the timestamp is
within the threshold — or when it is 0/missing, in which case the
staleness check is skipped. -/
theorem is_job_running_cases (d : ProgressRecord) (now : ℚ) :
    (is_job_running none now = false)
    ∧ (d.status ≠ "running" → is_job_running (some d) now = false)
    ∧ (d.last_flush_ts ≠ 0 → now - d.last_flush_ts > STALE_TIMEOUT →
        is_job_running (some d) now = false)
    ∧ (d.status = "running" →
        (d.last_flush_ts = 0 ∨ now - d.last_flush_ts ≤ STALE_TIMEOUT) →
        is_job_running (some d) now = true) := by
  refine ⟨rfl, fun hs => ?_, fun hz hst => ?_, fun hs hin => ?_⟩
  · simp [is_job_running, hs]
  · by_cases hs : d.status = "running" <;>
      simp [is_job_running, hs, hz, hst]
  · rcases hin with h0 | hle
    · simp [is_job_running, hs, h0]
    · simp [is_job_running, hs, not_lt.mpr hle]

/-- Witness for C7: a record one second past the threshold is not running. -/
theorem is_job_running_cases_witness :
    is_job_running (some { staleRec with last_flush_ts := 10 }) 200 = false :=
  (is_job_running_cases { staleRec with last_flush_ts := 10 } 200).2.2.1
    (by norm_num [staleRec]) (by norm_num [staleRec, STALE_TIMEOUT])

/-- Claim C5, counterexample: a `Result` element whose text has no leading
`DD-MM-YYYY` date but whose price span parses is mapped to
`('sold', price, null)`, where the claim demands `(null, null, null)` for
every case without a leading date. -/
theorem parse_result_status_sold_without_date_cex :
    matchLeadingDate "58 000 EUR" = none
    ∧ parse_result_status (some ⟨"58 000 EUR", some "58 000 EUR"⟩)
      = (some "sold", some 58000, none) := by decide

/-- Claim C5 (amended): the decoder maps a missing element to
`(null, null, null)`; a text containing `carence` (case-insensitively) to
`('carence', null, null)`; otherwise `non requise` to
`('non_requise', null, null)`; otherwise, whenever the price span parses,
to `('sold', price, d)` where `d` is the leading `DD-MM-YYYY` date
converted to `YYYY-MM-DD` when present and null otherwise; and to
`(null, null, null)` when no price parses — including a date present with
no price. -/
theorem parse_result_status_cases (e : ResultElem) :
    (parse_result_status none = (none, none, none))
    ∧ (strContainsSub (pyLower e.text) "carence" = true →
        parse_result_status (some e) = (some "carence", none, none))
    ∧ (strContainsSub (pyLower e.text) "carence" = false →
        strContainsSub (pyLower e.text) "non requise" = true →
        parse_result_status (some e) = (some "non_requise", none, none))
    ∧ (∀ fp : Int, strContainsSub (pyLower e.text) "carence" = false →
        strContainsSub (pyLower e.text) "non requise" = false →
        e.priceNumberSpan.bind parse_price = some fp →
        parse_result_status (some e)
          = (some "sold", some fp, matchLeadingDate e.text))
    ∧ (strContainsSub (pyLower e.text) "carence" = false →
        strContainsSub (pyLower e.text) "non requise" = false →
        e.priceNumberSpan.bind parse_price = none →
        parse_result_status (some e) = (none, none, none)) := by
  refine ⟨rfl, fun hc => ?_, fun hc hn => ?_, fun fp hc hn hp => ?_,
    fun hc hn hp => ?_⟩
  · simp [parse_result_status, hc]
  · simp [parse_result_status, hc, hn]
  · cases hsp : e.priceNumberSpan with
    | none => rw [hsp] at hp; simp at hp
    | some sp =>
      rw [hsp] at hp
      simp only [Option.some_bind] at hp
      simp [parse_result_status, hc, hn, hsp, hp]
  · cases hsp : e.priceNumberSpan with
    | none => simp [parse_result_status, hc, hn, hsp]
    | some sp =>
      rw [hsp] at hp
      simp only [Option.some_bind] at hp
      simp [parse_result_status, hc, hn, hsp, hp]

/-- Witness for C5 on the three literal result texts of the fixture pages. -/
theorem parse_result_status_cases_witness :
    parse_result_status (some ⟨"Carence denchere", none⟩)
      = (some "carence", none, none)
    ∧ parse_result_status (some ⟨"Vente non requise", none⟩)
      = (some "non_requise", none, none)
    ∧ parse_result_status (some ⟨"05-02-2026 : 58 000 EUR", some "58 000 EUR"⟩)
      = (some "sold", some 58000, matchLeadingDate "05-02-2026 : 58 000 EUR") :=
  ⟨(parse_result_status_cases ⟨"Carence denchere", none⟩).2.1 (by decide),
   (parse_result_status_cases ⟨"Vente non requise", none⟩).2.2.1
     (by decide) (by decide),
   (parse_result_status_cases
     ⟨"05-02-2026 : 58 000 EUR", some "58 000 EUR"⟩).2.2.2.1 58000
     (by decide) (by decide) (by decide)⟩

/-- Claim C2: an upsert for an existing `licitor_id` whose incoming summary
has a null `final_price` returns false, rewrites exactly the rows matching
the id through the guarded SET list, leaves the stored `final_price`
unchanged, and touches no field outside
{final_price, result_status, result_date, is_historical, status,
last_scraped_at}. -/
theorem upsert_preserves_on_null_result (db : DBState) (s : ListingSummary)
    (slug : Option String) (hist : Bool) (ad : Option String) (now : String)
    (r : ListingRow) (p : Int)
    (hmem : r ∈ db.listings) (hid : r.licitor_id = s.licitor_id)
    (hold : r.final_price = some p) (hnew : s.final_price = none) :
    (upsert_listing_summary db s slug hist ad now).1 = false
    ∧ (upsert_listing_summary db s slug hist ad now).2.listings
      = db.listings.map (fun x =>
          if x.licitor_id == s.licitor_id then applySummaryUpdate s hist now x
          else x)
    ∧ (applySummaryUpdate s hist now r).final_price = some p
    ∧ (applySummaryUpdate s hist now r).licitor_id = r.licitor_id
    ∧ (applySummaryUpdate s hist now r).url_path = r.url_path
    ∧ (applySummaryUpdate s hist now r).property_type = r.property_type
    ∧ (applySummaryUpdate s hist now r).department_code = r.department_code
    ∧ (applySummaryUpdate s hist now r).city = r.city
    ∧ (applySummaryUpdate s hist now r).mise_a_prix = r.mise_a_prix
    ∧ (applySummaryUpdate s hist now r).description = r.description
    ∧ (applySummaryUpdate s hist now r).tribunal_id = r.tribunal_id
    ∧ (applySummaryUpdate s hist now r).auction_date = r.auction_date
    ∧ (applySummaryUpdate s hist now r).auction_time = r.auction_time
    ∧ (applySummaryUpdate s hist now r).surface_m2 = r.surface_m2
    ∧ (applySummaryUpdate s hist now r).energy_rating = r.energy_rating
    ∧ (applySummaryUpdate s hist now r).occupancy_status = r.occupancy_status
    ∧ (applySummaryUpdate s hist now r).full_address = r.full_address
    ∧ (applySummaryUpdate s hist now r).latitude = r.latitude
    ∧ (applySummaryUpdate s hist now r).longitude = r.longitude
    ∧ (applySummaryUpdate s hist now r).cadastral_ref = r.cadastral_ref
    ∧ (applySummaryUpdate s hist now r).case_reference = r.case_reference
    ∧ (applySummaryUpdate s hist now r).lawyer_name = r.lawyer_name
    ∧ (applySummaryUpdate s hist now r).lawyer_phone = r.lawyer_phone
    ∧ (applySummaryUpdate s hist now r).view_count = r.view_count
    ∧ (applySummaryUpdate s hist now r).favorites_count = r.favorites_count
    ∧ (applySummaryUpdate s hist now r).publication_date = r.publication_date
    ∧ (applySummaryUpdate s hist now r).detail_scraped = r.detail_scraped := by
  have hsome : (db.listings.find?
      (fun y => y.licitor_id == s.licitor_id)).isSome :=
    List.find?_isSome.mpr ⟨r, hmem, by simp [hid]⟩
  obtain ⟨x, hx⟩ := Option.isSome_iff_exists.mp hsome
  refine ⟨?_, ?_, ?_, rfl, rfl, rfl, rfl, rfl, rfl, rfl, rfl, rfl, rfl, rfl,
    rfl, rfl, rfl, rfl, rfl, rfl, rfl, rfl, rfl, rfl, rfl, rfl, rfl⟩
  · simp [upsert_listing_summary, hx]
  · simp [upsert_listing_summary, hx]
  · simp [applySummaryUpdate, hnew, hold]

/-- Witness for C2: a second, price-less upsert of licitor 7 leaves the
stored 58 000 € final price in place. -/
theorem upsert_preserves_on_null_result_witness :
    (upsert_listing_summary ⟨[], [nonHistResultRow]⟩
      { licitor_id := 7, url_path := "/annonce/7.html" }
      none false none "2026-02-06").1 = false
    ∧ (applySummaryUpdate
        { licitor_id := 7, url_path := "/annonce/7.html" }
        false "2026-02-06" nonHistResultRow).final_price = some 58000 :=
  ⟨(upsert_preserves_on_null_result ⟨[], [nonHistResultRow]⟩
      { licitor_id := 7, url_path := "/annonce/7.html" }
      none false none "2026-02-06" nonHistResultRow 58000
      (by decide) (by decide) (by decide) rfl).1,
   (upsert_preserves_on_null_result ⟨[], [nonHistResultRow]⟩
      { licitor_id := 7, url_path := "/annonce/7.html" }
      none false none "2026-02-06" nonHistResultRow 58000
      (by decide) (by decide) (by decide) rfl).2.2.1⟩

/-- `find?` skips a prefix on which the predicate fails everywhere. -/
theorem find?_append_of_forall_false {α : Type} {p : α → Bool}
    {l1 l2 : List α} (h : ∀ a ∈ l1, ¬p a = true) :
    (l1 ++ l2).find? p = l2.find? p := by
  induction l1 with
  | nil => rfl
  | cons a l ih =>
    have ha : p a = false := by
      have := h a (List.mem_cons_self a l)
      simpa using this
    simpa [List.find?_cons, ha] using
      ih (fun b hb => h b (List.mem_cons_of_mem a hb))

/-- Claim C3: upserting a fresh summary twice leaves exactly one row for
its `licitor_id`; the first call reports a new insert and the second an
update. -/
theorem upsert_listing_summary_idempotent (db : DBState)
    (s : ListingSummary) (slug : Option String) (hist : Bool)
    (ad : Option String) (now now2 : String)
    (h0 : db.listings.countP (fun r => r.licitor_id == s.licitor_id) = 0) :
    (upsert_listing_summary db s slug hist ad now).1 = true
    ∧ (upsert_listing_summary (upsert_listing_summary db s slug hist ad now).2
        s slug hist ad now2).1 = false
    ∧ ((upsert_listing_summary (upsert_listing_summary db s slug hist ad now).2
        s slug hist ad now2).2).listings.countP
        (fun r => r.licitor_id == s.licitor_id) = 1 := by
  have hall : ∀ r ∈ db.listings, ¬(r.licitor_id == s.licitor_id) = true :=
    List.countP_eq_zero.mp h0
  have hfind1 : db.listings.find? (fun r => r.licitor_id == s.licitor_id)
      = none := List.find?_eq_none.mpr hall
  set newRow := insertSummaryRow s
    (match slug with | some sl => get_tribunal_id db sl | none => none)
    hist ad with hnew
  have hstep1 : upsert_listing_summary db s slug hist ad now
      = (true, { db with listings := db.listings ++ [newRow] }) := by
    simp [upsert_listing_summary, hfind1, hnew]
  have hpnew : (newRow.licitor_id == s.licitor_id) = true := by
    simp [hnew, insertSummaryRow]
  have hfind2 : (db.listings ++ [newRow]).find?
      (fun r => r.licitor_id == s.licitor_id) = some newRow := by
    rw [find?_append_of_forall_false hall]
    simp [List.find?_cons, hpnew]
  have hupd : ∀ x : ListingRow,
      ((if x.licitor_id == s.licitor_id
        then applySummaryUpdate s hist now2 x else x).licitor_id
        == s.licitor_id) = (x.licitor_id == s.licitor_id) := by
    intro x
    by_cases hb : (x.licitor_id == s.licitor_id) = true
    · simp [hb, applySummaryUpdate]
    · simp [eq_false_of_ne_true hb]
  refine ⟨by simp [hstep1], ?_, ?_⟩
  · rw [hstep1]
    simp [upsert_listing_summary, hfind2]
  · rw [hstep1]
    simp only [upsert_listing_summary, hfind2]
    rw [List.countP_map]
    have : ((db.listings ++ [newRow]).countP
        (fun x => ((if x.licitor_id == s.licitor_id
          then applySummaryUpdate s hist now2 x else x).licitor_id
          == s.licitor_id)))
        = (db.listings ++ [newRow]).countP
          (fun x => x.licitor_id == s.licitor_id) :=
      List.countP_congr (fun x _ => by rw [hupd x])
    rw [Function.comp_def] at *
    rw [this, List.countP_append, h0, List.countP_cons]
    simp [hpnew]

/-- Witness for C3 on an initially empty store. -/
theorem upsert_listing_summary_idempotent_witness :
    (upsert_listing_summary ⟨[], []⟩
      { licitor_id := 9, url_path := "/annonce/9.html" }
      none false none "d1").1 = true :=
  (upsert_listing_summary_idempotent ⟨[], []⟩
    { licitor_id := 9, url_path := "/annonce/9.html" }
    none false none "d1" "d2" (by decide)).1

/-- Claim C8, counterexample: the selector filters on
`result_status IS NOT NULL`, not on `is_historical` — a non-historical
listing with a scraped result and no starting price (and no surface) is
returned by both backfill selectors, while a historical listing lacking
both fields but carrying no result is returned by neither. -/
theorem backfill_selector_nonhistorical_cex :
    get_listings_without_mise_a_prix [nonHistResultRow] 10 = [nonHistResultRow]
    ∧ get_listings_without_surface [nonHistResultRow] 10 = [nonHistResultRow]
    ∧ nonHistResultRow.is_historical = false
    ∧ get_listings_without_mise_a_prix [histNoResultRow] 10 = []
    ∧ get_listings_without_surface [histNoResultRow] 10 = []
    ∧ histNoResultRow.is_historical = true
    ∧ histNoResultRow.mise_a_prix = none
    ∧ histNoResultRow.surface_m2 = none := by decide

/-- Common shape of the two backfill selector queries:
filter, sort by `licitor_id` descending, truncate. -/
theorem selector_query_spec (p : ListingRow → Bool)
    (listings : List ListingRow) (limit : Nat) :
    (((List.insertionSort licitorDesc (listings.filter p)).take limit).length
      ≤ limit)
    ∧ (∀ r ∈ (List.insertionSort licitorDesc (listings.filter p)).take limit,
        r ∈ listings ∧ p r = true)
    ∧ List.Sorted licitorDesc
        ((List.insertionSort licitorDesc (listings.filter p)).take limit) := by
  refine ⟨List.length_take_le limit _, fun r hr => ?_, ?_⟩
  · have hr2 : r ∈ List.insertionSort licitorDesc (listings.filter p) :=
      List.take_subset _ _ hr
    have hr3 : r ∈ listings.filter p :=
      (List.perm_insertionSort licitorDesc _).subset hr2
    exact ⟨(List.mem_filter.mp hr3).1, (List.mem_filter.mp hr3).2⟩
  · exact List.Pairwise.sublist (List.take_sublist _ _)
      (List.sorted_insertionSort licitorDesc _)

/-- Claim C8 (amended): the starting-price and surface backfill selectors
return only listings with a non-null `result_status` (result-bearing, not
`is_historical`-flagged) whose targeted field is null or 0, capped at the
given limit and ordered by `licitor_id` descending. -/
theorem backfill_selectors_spec (listings : List ListingRow) (limit : Nat) :
    ((get_listings_without_mise_a_prix listings limit).length ≤ limit)
    ∧ (∀ r ∈ get_listings_without_mise_a_prix listings limit,
        r ∈ listings ∧ r.result_status.isSome = true
        ∧ (r.mise_a_prix.isNone || r.mise_a_prix == some 0) = true)
    ∧ List.Sorted licitorDesc (get_listings_without_mise_a_prix listings limit)
    ∧ ((get_listings_without_surface listings limit).length ≤ limit)
    ∧ (∀ r ∈ get_listings_without_surface listings limit,
        r ∈ listings ∧ r.result_status.isSome = true
        ∧ (r.surface_m2.isNone || r.surface_m2 == some 0) = true)
    ∧ List.Sorted licitorDesc (get_listings_without_surface listings limit) := by
  obtain ⟨hl1, hm1, hs1⟩ := selector_query_spec lacksMiseAPrix listings limit
  obtain ⟨hl2, hm2, hs2⟩ := selector_query_spec lacksSurface listings limit
  refine ⟨hl1, fun r hr => ?_, hs1, hl2, fun r hr => ?_, hs2⟩
  · obtain ⟨hmem, hp⟩ := hm1 r hr
    have := (Bool.and_eq_true _ _).mp hp
    exact ⟨hmem, this.1, this.2⟩
  · obtain ⟨hmem, hp⟩ := hm2 r hr
    have := (Bool.and_eq_true _ _).mp hp
    exact ⟨hmem, this.1, this.2⟩

/-- Witness for C8 on a one-row table. -/
theorem backfill_selectors_spec_witness :
    nonHistResultRow ∈ [nonHistResultRow]
    ∧ nonHistResultRow.result_status.isSome = true :=
  ⟨by decide, ((backfill_selectors_spec [nonHistResultRow] 5).2.1
    nonHistResultRow (by decide)).2.1⟩

/-- The inner hearing loop scrapes no more hearings than the bound allows:
entered with `scraped ≤ mx`, it adds at most `mx - scraped`. -/
theorem innerHearings_extra_le (site : Site) (mx : Nat) (cur : String) :
    ∀ (hd : List HearingLink) (v : List String) (scraped : Nat),
      scraped ≤ mx →
      scraped + (innerHearings site mx cur hd v scraped).2.2 ≤ mx := by
  intro hd
  induction hd with
  | nil => intro v scraped h; simpa [innerHearings] using h
  | cons h rest ih =>
    intro v scraped hle
    simp only [innerHearings]
    by_cases h1 : scraped ≥ mx
    · simpa [h1] using hle
    · simp only [h1, if_false]
      by_cases h2 : h.url_path ∈ v
      · simp only [h2, if_true]; exact ih v scraped hle
      · simp only [h2, if_false]
        by_cases h3 : stripQuery h.url_path = stripQuery cur
        · simp only [h3, if_true]; exact ih v scraped hle
        · simp only [h3, if_false]
          cases hs : scrape_hearing_all_pages site h.url_path with
          | none => simp only [hs]; exact ih (h.url_path :: v) scraped hle
          | some out =>
            simp only [hs]
            have := ih (h.url_path :: v) (scraped + 1) (by omega)
            omega

/-- The inner hearing loop only adds a hearing URL to the visited set after
checking it is absent, so it preserves distinctness. -/
theorem innerHearings_nodup (site : Site) (mx : Nat) (cur : String) :
    ∀ (hd : List HearingLink) (v : List String) (scraped : Nat),
      v.Nodup → (innerHearings site mx cur hd v scraped).2.1.Nodup := by
  intro hd
  induction hd with
  | nil => intro v scraped h; simpa [innerHearings] using h
  | cons h rest ih =>
    intro v scraped hv
    simp only [innerHearings]
    by_cases h1 : scraped ≥ mx
    · simpa [h1] using hv
    · simp only [h1, if_false]
      by_cases h2 : h.url_path ∈ v
      · simp only [h2, if_true]; exact ih v scraped hv
      · simp only [h2, if_false]
        have hv2 : (h.url_path :: v).Nodup := by
          simp [List.nodup_cons, h2, hv]
        by_cases h3 : stripQuery h.url_path = stripQuery cur
        · simp only [h3, if_true]; exact ih v scraped hv
        · simp only [h3, if_false]
          cases hs : scrape_hearing_all_pages site h.url_path with
          | none => simp only [hs]; exact ih (h.url_path :: v) scraped hv2
          | some out =>
            simp only [hs]; exact ih (h.url_path :: v) (scraped + 1) hv2

/-- Invariant of the main history loop: the hearing counter stays within
the bound and the visited set stays duplicate-free. -/
theorem historyWalk_bounds (site : Site) (mx : Nat) :
    ∀ (cur : Option String) (st : HistoryWalkState),
      st.hearings_scraped ≤ mx → st.visited_urls.Nodup →
      ∀ st', historyWalk site mx cur st = some st' →
        st'.hearings_scraped ≤ mx ∧ st'.visited_urls.Nodup := by
  intro cur st
  induction cur, st using historyWalk.induct site mx with
  | case1 st =>
    intro hle hnd st' heq
    simp only [historyWalk] at heq
    cases heq
    exact ⟨hle, hnd⟩
  | case2 st =>
    intro hle hnd st' heq
    simp only [historyWalk, if_pos rfl] at heq
    cases heq
    exact ⟨hle, hnd⟩
  | case3 st url hne hlt hmem =>
    intro hle hnd st' heq
    simp only [historyWalk, if_neg hne, dif_pos hlt, if_pos hmem] at heq
    cases heq
    exact ⟨hle, hnd⟩
  | case4 st url hne hlt hmem hsite =>
    intro hle hnd st' heq
    simp only [historyWalk, if_neg hne, dif_pos hlt, if_neg hmem, hsite] at heq
    cases heq
    exact ⟨hle, by simp [List.nodup_cons, hmem, hnd]⟩
  | case5 st url hne hlt hmem pg hsite hpag =>
    intro hle hnd st' heq
    simp only [historyWalk, if_neg hne, dif_pos hlt, if_neg hmem, hsite,
      hpag] at heq
    exact Option.noConfusion heq
  | case6 st url hne hlt hmem pg hsite s hpag hemp ih1 =>
    intro hle hnd st' heq
    simp only [historyWalk, if_neg hne, dif_pos hlt, if_neg hmem, hsite,
      hpag, hemp, if_true] at heq
    exact ih1 (by simp; omega) (by simp [List.nodup_cons, hmem, hnd]) st' heq
  | case7 st url hne hlt hmem pg hsite s hpag hemp ih1 =>
    intro hle hnd st' heq
    simp only [historyWalk, if_neg hne, dif_pos hlt, if_neg hmem, hsite,
      hpag, hemp, if_false] at heq
    have hextra := innerHearings_extra_le site mx url pg.hearingDates
      (url :: st.visited_urls) (st.hearings_scraped + 1) (by omega)
    have hnd2 := innerHearings_nodup site mx url pg.hearingDates
      (url :: st.visited_urls) (st.hearings_scraped + 1)
      (by simp [List.nodup_cons, hmem, hnd])
    exact ih1 (by simp; omega) (by simpa using hnd2) st' heq
  | case8 st url hne hge =>
    intro hle hnd st' heq
    simp only [historyWalk, if_neg hne, dif_neg hge] at heq
    cases heq
    exact ⟨hle, hnd⟩

/-- Claim C6: for every site, start URL, tribunal slug and bound, the
history walk terminates (the kernel accepts the decreasing measure
`max_hearings - hearings_scraped`, which the visited-set guards and the
counter justify), scrapes at most `max_hearings` hearing dates, and its
visited set of nav-page URLs stays duplicate-free. -/
theorem scrape_tribunal_history_bounded (site : Site)
    (start_url tribunal_slug : String) (max_hearings : Nat) :
    ∀ st', scrape_tribunal_history site start_url tribunal_slug max_hearings
        = some st' →
      st'.hearings_scraped ≤ max_hearings ∧ st'.visited_urls.Nodup :=
  fun st' heq => historyWalk_bounds site max_hearings (some start_url)
    { all_summaries := [], visited_urls := [], hearings_scraped := 0 }
    (Nat.zero_le _) List.nodup_nil st' heq

/-- Witness for C6: a site whose every fetch fails yields an empty crawl
with one visited URL. -/
theorem scrape_tribunal_history_bounded_witness :
    (⟨[], ["/x"], 0⟩ : HistoryWalkState).hearings_scraped ≤ 3
    ∧ (⟨[], ["/x"], 0⟩ : HistoryWalkState).visited_urls.Nodup :=
  scrape_tribunal_history_bounded (fun _ => none) "/x" "tj-x" 3
    ⟨[], ["/x"], 0⟩
    (by simp only [scrape_tribunal_history, historyWalk]; norm_num; decide)

end Encheres
